import Mathlib

/-!
Shallow embedding of the reliability-wrapped persistence layer of the
dexter-workspace repository (src/helpers/db_helper.py,
src/helpers/reliability.py, src/helpers/agent_brain.py), together with
theorems settling the spec's claims about it.

Machine-level conventions of the embedding:
* Python exceptions become values of the inductive type PyErr; a function
  that can raise returns Except PyErr (or pairs a result with Option PyErr).
* Wall-clock times, sleeps and rates are modelled as rationals.
* A sqlite connection is modelled by the pair of a committed database state
  and a pending (in-transaction) state; commit, rollback and close follow
  the documented semantics of CPython's sqlite3 module: commit publishes
  pending work, rollback discards it, and closing a connection without
  committing discards uncommitted work.
-/

/-- Python exceptions relevant to this layer, each carrying its message.
sqlite3.Error and its subclasses are collapsed into one constructor; the
str() rendering of an exception is its message (see pyStr). -/
inductive PyErr where
  | sqlite (msg : String)
  | fileNotFound (msg : String)
  | rateLimitErr (msg : String)
  | safetyFailed (msg : String)
  | other (msg : String)
  deriving DecidableEq, Repr

/-- Python str(e) for an exception: its message string. -/
def pyStr : PyErr → String
  | PyErr.sqlite m => m
  | PyErr.fileNotFound m => m
  | PyErr.rateLimitErr m => m
  | PyErr.safetyFailed m => m
  | PyErr.other m => m

/-- Whether an exception is (an instance of a subclass of) sqlite3.Error:
exactly what the except clause in get_connection catches. -/
def isSqliteError : PyErr → Bool
  | PyErr.sqlite _ => true
  | _ => false

section RateLimiterModel

/-!
RateLimiter (src/helpers/reliability.py, lines 37-73) for a single key:
self.calls[key] is the list of recorded call timestamps, self.max_calls
and self.time_window the configuration.
-/

/-- The per-key state and configuration of reliability.RateLimiter. -/
structure RateLimiter where
  max_calls : Nat
  time_window : ℚ
  calls : List ℚ
  deriving Repr

/-- RateLimiter.check_limit for one key at wall-clock time now.
Returns the limiter state after the call and the raised RateLimitError,
if any.  Mirrors the source: prune timestamps at or before
now - time_window, raise if the pruned count reaches max_calls
(without recording), otherwise record now. -/
def RateLimiter.check_limit (rl : RateLimiter) (now : ℚ) :
    RateLimiter × Option PyErr :=
  let window_start := now - rl.time_window
  let kept := rl.calls.filter (fun t => decide (window_start < t))
  if rl.max_calls ≤ kept.length then
    ({ rl with calls := kept },
     some (PyErr.rateLimitErr "Rate limit exceeded"))
  else
    ({ rl with calls := kept ++ [now] }, none)

/-- The rate_limit decorator (reliability.py lines 157-171): check the
limit, then invoke the wrapped function only when no error was raised.
The Bool records whether the wrapped operation was invoked. -/
def rate_limit_call (rl : RateLimiter) (now : ℚ) (f : Unit → α) :
    RateLimiter × Except PyErr α × Bool :=
  match RateLimiter.check_limit rl now with
  | (rl2, some e) => (rl2, Except.error e, false)
  | (rl2, none) => (rl2, Except.ok (f ()), true)

end RateLimiterModel

section PatternModel

/-!
agent_patterns rows and update_pattern_success
(src/helpers/agent_brain.py, lines 240-268).
-/

/-- A row of the agent_patterns table, restricted to the columns
update_pattern_success touches or reads. last_used is a timestamp. -/
structure PatternRow where
  id : Nat
  success_rate : ℚ
  usage_count : Nat
  last_used : Nat
  deriving DecidableEq, Repr

/-- update_pattern_success(pattern_id, success): fetch the row by id; if
present, recompute the streaming mean and bump usage_count, stamping
last_used with the current time; if absent, do nothing. -/
def update_pattern_success (db : List PatternRow) (now : Nat)
    (pattern_id : Nat) (success : Bool) : List PatternRow :=
  match db.find? (fun r => r.id == pattern_id) with
  | none => db
  | some row =>
    let new_rate : ℚ :=
      (row.success_rate * row.usage_count + (if success then 1 else 0))
        / (row.usage_count + 1)
    db.map (fun r =>
      if r.id == pattern_id then
        { r with success_rate := new_rate,
                 usage_count := r.usage_count + 1,
                 last_used := now }
      else r)

end PatternModel

section PreferenceModel

/-!
preferences rows, get_preference and set_preference
(src/helpers/db_helper.py, lines 284-305).
-/

/-- A row of the preferences table. updated_at is a timestamp. -/
structure PrefRow where
  key : String
  value : String
  description : String
  updated_at : Nat
  deriving DecidableEq, Repr

/-- set_preference(key, value, description) at wall-clock time now:
INSERT .. ON CONFLICT(key) DO UPDATE SET value = ?, updated_at =
CURRENT_TIMESTAMP.  On conflict only value and updated_at are written;
description is mentioned only in the INSERT arm. -/
def set_preference (db : List PrefRow) (now : Nat)
    (key value description : String) : List PrefRow :=
  if db.any (fun r => r.key == key) then
    db.map (fun r =>
      if r.key == key then { r with value := value, updated_at := now }
      else r)
  else
    db ++ [{ key := key, value := value, description := description,
             updated_at := now }]

/-- get_preference(key): SELECT value FROM preferences WHERE key = ?. -/
def get_preference (db : List PrefRow) (key : String) : Option String :=
  (db.find? (fun r => r.key == key)).map (fun r => r.value)

end PreferenceModel

section RetryModel

/-!
retry_with_backoff (src/helpers/reliability.py, lines 81-117).
The wrapped function is modelled by the outcome of each of its
invocations: outcomes n is what the n-th invocation (0-based) returns or
raises.  retryable models the isinstance test of the except clause.
-/

/-- The for-loop of retry_with_backoff's wrapper.  remaining is the number
of loop iterations still to run (initially max_retries + 1), attempt the
0-based index of the current invocation, delay the current sleep length.
Returns the final outcome, the number of invocations made, and the list
of sleeps performed.  The Python test attempt < max_retries is rendered
as 0 < rem: rem equals max_retries - attempt throughout.  The remaining=0
case is unreachable from retry_with_backoff (max_retries + 1 ≥ 1). -/
def retry_loop (outcomes : Nat → Except PyErr α) (retryable : PyErr → Bool)
    (backoff_factor : ℚ) :
    (remaining : Nat) → (attempt : Nat) → (delay : ℚ) →
    Except PyErr α × Nat × List ℚ
  | 0, _, _ => (Except.error (PyErr.other "loop body never entered"), 0, [])
  | Nat.succ rem, attempt, delay =>
    match outcomes attempt with
    | Except.ok a => (Except.ok a, 1, [])
    | Except.error e =>
      if retryable e then
        if 0 < rem then
          let rest := retry_loop outcomes retryable backoff_factor rem
            (attempt + 1) (delay * backoff_factor)
          (rest.1, rest.2.1 + 1, delay :: rest.2.2)
        else
          (Except.error e, 1, [])
      else
        (Except.error e, 1, [])

/-- retry_with_backoff(max_retries, initial_delay, backoff_factor,
exceptions) applied to a wrapped function with the given invocation
outcomes: for attempt in range(max_retries + 1). -/
def retry_with_backoff (max_retries : Nat) (initial_delay backoff_factor : ℚ)
    (retryable : PyErr → Bool) (outcomes : Nat → Except PyErr α) :
    Except PyErr α × Nat × List ℚ :=
  retry_loop outcomes retryable backoff_factor (max_retries + 1) 0 initial_delay

end RetryModel

section ConnectionModel

/-!
get_connection (src/helpers/db_helper.py, lines 20-67): the acquisition
retry loop (lines 37-55) and the scoped commit/rollback/close discipline
(lines 57-67).
-/

/-- The acquisition loop of get_connection.  opens n is the outcome of the
n-th sqlite3.connect-and-pragma attempt (none = success, some e = raised
e).  remaining counts the loop iterations still to run (initially
retry_count), attempt is the 0-based loop index.  Returns the index of
the successful attempt or the raised error, plus the list of sleeps:
the Python test attempt < retry_count - 1 is rendered as 0 < rem
(rem equals retry_count - 1 - attempt throughout), and the sleep is
0.1 * (attempt + 1) seconds.  Only sqlite3.Error is caught by the except
clause; other exceptions propagate at once.  The remaining=0 case
(retry_count = 0, loop body never entered) leaves conn = None in the
source and the subsequent conn.commit() raises; it is modelled as an
immediate error. -/
def connect_loop (opens : Nat → Option PyErr) :
    (remaining : Nat) → (attempt : Nat) → Except PyErr Nat × List ℚ
  | 0, _ => (Except.error (PyErr.other "NoneType has no attribute commit"), [])
  | Nat.succ rem, attempt =>
    match opens attempt with
    | none => (Except.ok attempt, [])
    | some e =>
      if isSqliteError e then
        if 0 < rem then
          let rest := connect_loop opens rem (attempt + 1)
          (rest.1, (1 / 10 : ℚ) * (attempt + 1) :: rest.2)
        else
          (Except.error e, [])
      else
        (Except.error e, [])

/-- get_connection's acquisition phase with retry_count attempts. -/
def get_connection_open (opens : Nat → Option PyErr) (retry_count : Nat) :
    Except PyErr Nat × List ℚ :=
  connect_loop opens retry_count 0

/-- A sqlite connection over database states σ: the durable committed
state and the pending in-transaction state. -/
structure Conn (σ : Type) where
  committed : σ
  pending : σ
  is_open : Bool

/-- conn.commit(): publish pending work. -/
def Conn.commit (c : Conn σ) : Conn σ := { c with committed := c.pending }

/-- conn.rollback(): discard pending work. -/
def Conn.rollback (c : Conn σ) : Conn σ := { c with pending := c.committed }

/-- conn.close(): uncommitted pending work is lost; the committed state
survives on disk. -/
def Conn.close (c : Conn σ) : Conn σ := { c with is_open := false }

/-- The statements executed inside a with get_connection() block, run in
sequence against the connection's pending state; the block stops at the
first statement (or arbitrary Python step) that raises. -/
def run_block (pending : σ) (stmts : List (σ → Except PyErr σ)) :
    σ × Option PyErr :=
  match stmts with
  | [] => (pending, none)
  | s :: rest =>
    match s pending with
    | Except.ok st => run_block st rest
    | Except.error e => (pending, some e)

/-- What a caller of get_connection observes at scope exit. -/
structure ScopeResult (σ : Type) where
  db : σ
  raised : Option PyErr
  closed : Bool
  deriving Repr

/-- The scope discipline of get_connection (lines 57-67): yield the
connection to the block; on normal return commit; on sqlite3.Error
rollback and re-raise; any other escaping error skips the except clause;
the finally clause always closes the connection (discarding whatever is
still uncommitted). -/
def get_connection_scope (db : σ) (stmts : List (σ → Except PyErr σ)) :
    ScopeResult σ :=
  let conn0 : Conn σ := { committed := db, pending := db, is_open := true }
  let (pend, out) := run_block conn0.pending stmts
  let conn1 : Conn σ := { conn0 with pending := pend }
  match out with
  | none =>
    let conn2 := conn1.commit.close
    { db := conn2.committed, raised := none, closed := !conn2.is_open }
  | some e =>
    if isSqliteError e then
      let conn2 := conn1.rollback.close
      { db := conn2.committed, raised := some e, closed := !conn2.is_open }
    else
      let conn2 := conn1.close
      { db := conn2.committed, raised := some e, closed := !conn2.is_open }

end ConnectionModel

section InitDatabaseModel

/-!
init_database (src/helpers/db_helper.py, lines 70-107).  It deletes any
existing database file, checks that the schema file exists, then runs
with get_connection(db_path) as conn: conn.executescript(schema_sql).
-/

/-- Connection.executescript per the sqlite3 documentation: any pending
transaction is committed first and no other implicit transaction control
is performed, so each completed statement of the script is durable as
soon as it runs (the connection is in autocommit mode); the script stops
at the first failing statement.  Returns the durable state and the
raised error, if any. -/
def executescript (committed : σ) (stmts : List (σ → Except PyErr σ)) :
    σ × Option PyErr :=
  match stmts with
  | [] => (committed, none)
  | s :: rest =>
    match s committed with
    | Except.ok st => executescript st rest
    | Except.error e => (committed, some e)

/-- init_database(db_path, schema_path): the existing database file is
removed, so execution starts from the empty state; a missing schema file
raises FileNotFoundError; otherwise the schema statements run via
executescript inside a get_connection scope.  Because executescript
leaves nothing pending, the scope's commit (normal exit) and rollback
(sqlite3.Error exit) both leave the durable state exactly as
executescript produced it, so that state is returned directly, together
with the error escaping the scope, if any. -/
def init_database (schema_exists : Bool)
    (stmts : List (σ → Except PyErr σ)) (empty : σ) : σ × Option PyErr :=
  if schema_exists = false then
    (empty, some (PyErr.fileNotFound "Schema file not found"))
  else
    executescript empty stmts

end InitDatabaseModel

section AuditModel

/-!
The action_log table, log_action (src/helpers/db_helper.py, lines
337-359), ActionVerifier.verify_action_completion and the
require_verification decorator (src/helpers/reliability.py, lines
425-459 and 499-561).
-/

/-- A row of the action_log table, restricted to the columns
require_verification touches. -/
structure ActionRow where
  id : Nat
  action_type : String
  status : String
  description : Option String
  deriving DecidableEq, Repr

/-- The action_log table with its autoincrement id counter. -/
structure AuditDb where
  rows : List ActionRow
  next_id : Nat
  deriving Repr

/-- log_action: INSERT INTO action_log (...) VALUES (...); returns
cursor.lastrowid. -/
def log_action (db : AuditDb) (action_type : String)
    (description : Option String) (status : String) : AuditDb × Nat :=
  ({ rows := db.rows ++
       [{ id := db.next_id, action_type := action_type, status := status,
          description := description }],
     next_id := db.next_id + 1 },
   db.next_id)

/-- UPDATE action_log SET status = ? WHERE id = ?. -/
def update_action_status (db : AuditDb) (action_id : Nat) (status : String) :
    AuditDb :=
  { db with rows := db.rows.map (fun r =>
      if r.id == action_id then { r with status := status } else r) }

/-- UPDATE action_log SET status = ?, description = ? WHERE id = ?
(the failure branch of require_verification). -/
def update_action_failed (db : AuditDb) (action_id : Nat) (status : String)
    (description : String) : AuditDb :=
  { db with rows := db.rows.map (fun r =>
      if r.id == action_id then
        { r with status := status, description := some description }
      else r) }

/-- SELECT status FROM action_log WHERE id = ?. -/
def get_action_status (db : AuditDb) (action_id : Nat) : Option String :=
  (db.rows.find? (fun r => r.id == action_id)).map (fun r => r.status)

/-- ActionVerifier.verify_action_completion: true only when the row
exists and its status is exactly completed. -/
def verify_action_completion (db : AuditDb) (action_id : Nat) : Bool :=
  match db.rows.find? (fun r => r.id == action_id) with
  | none => false
  | some r => r.status == "completed"

/-- The require_verification decorator applied to a call whose wrapped
function returns or raises fres (the wrapped function is modelled as not
touching action_log itself).  Mirrors the source: insert a pending row,
update it to in_progress, invoke the function; on success call
verify_action_completion (whose result the source discards) and mark
completed; on any exception mark failed with description str(e) and
re-raise.  Besides the final table it returns the new row's id, the
row's status as read back after each of the three writes, and the
result. -/
def require_verification (db : AuditDb) (action_type : String)
    (fres : Except PyErr α) :
    AuditDb × Nat × List (Option String) × Except PyErr α :=
  let step1 := log_action db action_type none "pending"
  let db1 := step1.1
  let action_id := step1.2
  let db2 := update_action_status db1 action_id "in_progress"
  match fres with
  | Except.ok a =>
    let _ := verify_action_completion db2 action_id
    let db3 := update_action_status db2 action_id "completed"
    (db3, action_id,
     [get_action_status db1 action_id, get_action_status db2 action_id,
      get_action_status db3 action_id],
     Except.ok a)
  | Except.error e =>
    let db3 := update_action_failed db2 action_id "failed" (pyStr e)
    (db3, action_id,
     [get_action_status db1 action_id, get_action_status db2 action_id,
      get_action_status db3 action_id],
     Except.error e)

end AuditModel

section SafetyModel

/-!
require_safety_check (src/helpers/reliability.py, lines 120-154).
-/

/-- The Python in operator on strings, over their character lists. -/
def charsContain (needle : List Char) : List Char → Bool
  | [] => needle.isEmpty
  | c :: rest => needle.isPrefixOf (c :: rest) || charsContain needle rest

/-- needle in haystack for Python strings. -/
def strContains (haystack needle : String) : Bool :=
  charsContain needle.data haystack.data

/-- The destructive-intent keywords of require_safety_check. -/
def destructive_keywords : List String :=
  ["delete", "remove", "drop", "truncate", "clear"]

/-- Python str.lower(): lowercase the string character by character. -/
def py_lower (s : String) : String :=
  String.mk (s.data.map Char.toLower)

/-- is_destructive = any(keyword in func.__name__.lower() for keyword in
[...]). -/
def is_destructive (func_name : String) : Bool :=
  destructive_keywords.any (fun kw => strContains (py_lower func_name) kw)

/-- require_safety_check(check_func) around a function named func_name,
called with arguments args of which confirm renders the truthiness of
kwargs.get('confirm', False).  Returns the call's result or the raised
SafetyCheckFailed, and whether the wrapped function was invoked. -/
def require_safety_check {κ α : Type} (check_func : Option (κ → Bool))
    (func_name : String) (confirm : Bool) (args : κ) (f : κ → α) :
    Except PyErr α × Bool :=
  if is_destructive func_name then
    match check_func with
    | some ch =>
      if ch args then (Except.ok (f args), true)
      else
        (Except.error (PyErr.safetyFailed
          "Safety check failed. Operation blocked."), false)
    | none =>
      if confirm then (Except.ok (f args), true)
      else
        (Except.error (PyErr.safetyFailed
          "Destructive operation requires confirm=True parameter"), false)
  else (Except.ok (f args), true)

end SafetyModel

section ListHelpers

/-- A conditional row update whose condition matches nothing in the list
leaves the list unchanged (a WHERE clause selecting no row). -/
theorem map_update_eq_self {β : Type} (p : β → Bool) (g : β → β)
    (l : List β) (h : ∀ r ∈ l, p r = false) :
    l.map (fun r => if p r then g r else r) = l := by
  induction l with
  | nil => rfl
  | cons x t ih =>
    have hx := h x (List.mem_cons_self x t)
    simp only [List.map_cons, hx, Bool.false_eq_true, if_false]
    rw [ih (fun r hr => h r (List.mem_cons_of_mem x hr))]

/-- find? after a conditional row update that preserves the search
predicate: the first match is the updated first match. -/
theorem find?_map_update {β : Type} (p : β → Bool) (g : β → β)
    (hg : ∀ r, p (g r) = p r) (l : List β) :
    (l.map (fun r => if p r then g r else r)).find? p = (l.find? p).map g := by
  induction l with
  | nil => rfl
  | cons x t ih =>
    by_cases hx : p x = true
    · simp only [List.map_cons, hx, if_true]
      rw [List.find?_cons_of_pos _ (by rw [hg]; exact hx),
          List.find?_cons_of_pos _ hx]
      rfl
    · have hx' : p x = false := by simpa using hx
      simp only [List.map_cons, hx', Bool.false_eq_true, if_false]
      rw [List.find?_cons_of_neg _ (by simp [hx']),
          List.find?_cons_of_neg _ (by simp [hx']), ih]

/-- A conditional row update that preserves the predicate also preserves
the number of matching rows. -/
theorem countP_map_update {β : Type} (p : β → Bool) (g : β → β)
    (hg : ∀ r, p (g r) = p r) (l : List β) :
    (l.map (fun r => if p r then g r else r)).countP p = l.countP p := by
  induction l with
  | nil => rfl
  | cons x t ih =>
    by_cases hx : p x = true
    · simp only [List.map_cons, hx, if_true]
      rw [List.countP_cons, List.countP_cons, ih, hg, hx]
    · have hx' : p x = false := by simpa using hx
      simp only [List.map_cons, hx', Bool.false_eq_true, if_false]
      rw [List.countP_cons, List.countP_cons, ih]

end ListHelpers

/-- C10: update_pattern_success called with a pattern_id matching no row
raises no error (the model is a total function into plain states, with no
error component) and leaves every row untouched, creating none: the
fetchone() is None, so the UPDATE branch is never reached. -/
theorem update_pattern_success_unmatched_noop (db : List PatternRow)
    (now pattern_id : Nat) (success : Bool)
    (h : ∀ r ∈ db, r.id ≠ pattern_id) :
    update_pattern_success db now pattern_id success = db := by
  have hfind : db.find? (fun r => r.id == pattern_id) = none :=
    List.find?_eq_none.mpr (fun r hr => by simpa using h r hr)
  simp [update_pattern_success, hfind]

/-- Witness for update_pattern_success_unmatched_noop: a one-row table
and a pattern_id (2) matching no row. -/
theorem update_pattern_success_unmatched_noop_witness :
    (∀ r ∈ [(⟨1, 0, 0, 0⟩ : PatternRow)], r.id ≠ 2)
    ∧ update_pattern_success [(⟨1, 0, 0, 0⟩ : PatternRow)] 5 2 true
        = [(⟨1, 0, 0, 0⟩ : PatternRow)] :=
  ⟨by decide,
   update_pattern_success_unmatched_noop [⟨1, 0, 0, 0⟩] 5 2 true (by decide)⟩

/-- C8: update_pattern_success recomputes the matched row's success_rate
as (old_rate * old_count + outcome) / (old_count + 1) and increments its
usage_count by exactly one; and starting from rate 0, count 0, the
outcome sequence [true, false, true] ends at rate 2/3, count 3. -/
theorem update_pattern_success_streaming_mean :
    (∀ (db : List PatternRow) (now pattern_id : Nat) (success : Bool)
       (row : PatternRow),
       db.find? (fun r => r.id == pattern_id) = some row →
       (update_pattern_success db now pattern_id success).find?
           (fun r => r.id == pattern_id) =
         some { row with
                success_rate := (row.success_rate * row.usage_count +
                  (if success then 1 else 0)) / (row.usage_count + 1),
                usage_count := row.usage_count + 1,
                last_used := now })
    ∧ update_pattern_success (update_pattern_success (update_pattern_success
        [(⟨1, 0, 0, 0⟩ : PatternRow)] 1 1 true) 2 1 false) 3 1 true
        = [(⟨1, 2 / 3, 3, 3⟩ : PatternRow)] := by
  constructor
  · intro db now pattern_id success row hfind
    have hmap : update_pattern_success db now pattern_id success
        = db.map (fun r =>
            if r.id == pattern_id then
              { r with
                success_rate := (row.success_rate * row.usage_count +
                  (if success then 1 else 0)) / (row.usage_count + 1),
                usage_count := r.usage_count + 1,
                last_used := now }
            else r) := by
      unfold update_pattern_success
      rw [hfind]
    rw [hmap,
        find?_map_update (fun r => r.id == pattern_id)
          (fun r =>
            { r with
              success_rate := (row.success_rate * row.usage_count +
                (if success then 1 else 0)) / (row.usage_count + 1),
              usage_count := r.usage_count + 1,
              last_used := now })
          (fun r => rfl) db,
        hfind]
    rfl
  · norm_num [update_pattern_success, List.find?]

/-- Witness for update_pattern_success_streaming_mean: one further
outcome on a row with rate 1/2, count 2 yields rate 2/3, count 3. -/
theorem update_pattern_success_streaming_mean_witness :
    (List.find? (fun r => r.id == 1) [(⟨1, 1 / 2, 2, 0⟩ : PatternRow)]
        = some (⟨1, 1 / 2, 2, 0⟩ : PatternRow))
    ∧ (update_pattern_success [(⟨1, 1 / 2, 2, 0⟩ : PatternRow)] 7 1 true).find?
        (fun r => r.id == 1) = some (⟨1, 2 / 3, 3, 7⟩ : PatternRow) := by
  refine ⟨rfl, ?_⟩
  have h := update_pattern_success_streaming_mean.1
    [(⟨1, 1 / 2, 2, 0⟩ : PatternRow)] 7 1 true ⟨1, 1 / 2, 2, 0⟩ rfl
  rw [h]
  norm_num

/-- C9 counterexample: setting the same key twice with different
descriptions leaves the first description in place — the ON CONFLICT arm
of set_preference updates only value and updated_at, never description,
so the claim that an upsert updates the mutable fields value AND
description fails on the code. -/
theorem set_preference_keeps_old_description :
    set_preference (set_preference [] 1 "update_key" "value1" "desc1") 2
        "update_key" "value2" "desc2"
      = [(⟨"update_key", "value2", "desc1", 2⟩ : PrefRow)]
    ∧ ∀ r ∈ set_preference (set_preference [] 1 "update_key" "value1" "desc1")
          2 "update_key" "value2" "desc2", r.description ≠ "desc2" := by
  decide

/-- C9 (amended): set_preference has upsert semantics on key — a second
set for an existing key does not fail, leaves exactly one row for the
key, updates that row's value and updated_at (description is left
unchanged), leaves all other rows untouched, and a subsequent
get_preference returns the new value; in particular
set_preference("update_key","value1") then ("update_key","value2") makes
get_preference("update_key") return "value2". -/
theorem set_preference_upsert (db : List PrefRow) (now : Nat)
    (k v d : String) (h : db.countP (fun r => r.key == k) ≤ 1) :
    (set_preference db now k v d).countP (fun r => r.key == k) = 1
    ∧ get_preference (set_preference db now k v d) k = some v
    ∧ (∀ r ∈ db, r.key = k →
        ({ key := r.key, value := v, description := r.description,
           updated_at := now } : PrefRow) ∈ set_preference db now k v d)
    ∧ (∀ r ∈ db, r.key ≠ k → r ∈ set_preference db now k v d)
    ∧ (set_preference db now k v d).length =
        (if db.any (fun r => r.key == k) then db.length else db.length + 1)
    ∧ get_preference
        (set_preference (set_preference [] 1 "update_key" "value1" "d1") 2
          "update_key" "value2" "d2") "update_key" = some "value2" := by
  by_cases hany : db.any (fun r => r.key == k) = true
  · have hpos : 0 < db.countP (fun r => r.key == k) := by
      rw [List.countP_pos_iff]
      exact List.any_eq_true.mp hany
    refine ⟨?_, ?_, ?_, ?_, ?_, by decide⟩
    · rw [set_preference, if_pos hany,
          countP_map_update (fun r => r.key == k)
            (fun s => { s with value := v, updated_at := now })
            (fun r => rfl) db]
      omega
    · rw [set_preference, if_pos hany, get_preference,
          find?_map_update (fun r => r.key == k)
            (fun s => { s with value := v, updated_at := now })
            (fun r => rfl) db]
      obtain ⟨x, hx, hpx⟩ := List.any_eq_true.mp hany
      have hsome : (db.find? (fun r => r.key == k)).isSome = true :=
        List.find?_isSome.mpr ⟨x, hx, hpx⟩
      obtain ⟨y, hy⟩ := Option.isSome_iff_exists.mp hsome
      rw [hy]
      rfl
    · intro r hr hrk
      rw [set_preference, if_pos hany]
      have hmem := List.mem_map_of_mem (fun s =>
        if s.key == k then { s with value := v, updated_at := now } else s) hr
      simpa [hrk] using hmem
    · intro r hr hrk
      rw [set_preference, if_pos hany]
      have hmem := List.mem_map_of_mem (fun s =>
        if s.key == k then { s with value := v, updated_at := now } else s) hr
      simpa [hrk] using hmem
    · rw [set_preference, if_pos hany, List.length_map, if_pos hany]
  · have hall : ∀ r ∈ db, (r.key == k) = false := by
      intro r hr
      by_contra hc
      exact hany (List.any_eq_true.mpr ⟨r, hr, by simpa using hc⟩)
    have hanyf : db.any (fun r => r.key == k) = false := by
      simpa using hany
    refine ⟨?_, ?_, ?_, ?_, ?_, by decide⟩
    · have hc0 : db.countP (fun r => r.key == k) = 0 := by
        rw [List.countP_eq_length_filter,
            List.filter_eq_nil_iff.mpr (fun r hr => by simp [hall r hr])]
        rfl
      rw [set_preference, if_neg hany, List.countP_append, hc0]
      simp [List.countP_cons]
    · rw [set_preference, if_neg hany, get_preference, List.find?_append,
          List.find?_eq_none.mpr (fun r hr => by simp [hall r hr])]
      simp [List.find?]
    · intro r hr hrk
      have := hall r hr
      simp [hrk] at this
    · intro r hr _
      rw [set_preference, if_neg hany]
      exact List.mem_append_left _ hr
    · rw [set_preference, if_neg hany, List.length_append, if_neg hany]
      rfl


/-- Witness for set_preference_upsert: the empty table satisfies the
at-most-one-row-per-key invariant, and after the upsert
get_preference returns the value just set. -/
theorem set_preference_upsert_witness :
    (List.countP (fun r => r.key == "update_key") ([] : List PrefRow) ≤ 1)
    ∧ get_preference (set_preference [] 5 "update_key" "value2" "d")
        "update_key" = some "value2" :=
  ⟨by decide, (set_preference_upsert [] 5 "update_key" "value2" "d"
    (by decide)).2.1⟩

/-- C5: a check_limit call finding at least max_calls timestamps inside
the sliding window raises RateLimitError without invoking the wrapped
operation and without recording a new timestamp (only the lazy pruning of
expired timestamps is persisted); any other call records the current
timestamp and invokes the operation; and with max_calls = 2 over a
60-second window, three calls at times 0, 1/2 and 9/10 seconds raise on
the third call only. -/
theorem rate_limiter_sliding_window :
    (∀ (α : Type) (rl : RateLimiter) (now : ℚ) (f : Unit → α),
       rl.max_calls ≤ rl.calls.countP (fun t => decide (now - rl.time_window < t)) →
       rate_limit_call rl now f =
         ({ rl with calls :=
              rl.calls.filter (fun t => decide (now - rl.time_window < t)) },
          Except.error (PyErr.rateLimitErr "Rate limit exceeded"), false))
    ∧ (∀ (α : Type) (rl : RateLimiter) (now : ℚ) (f : Unit → α),
       rl.calls.countP (fun t => decide (now - rl.time_window < t)) < rl.max_calls →
       rate_limit_call rl now f =
         ({ rl with calls :=
              rl.calls.filter (fun t => decide (now - rl.time_window < t)) ++ [now] },
          Except.ok (f ()), true))
    ∧ (RateLimiter.check_limit ⟨2, 60, []⟩ 0).2 = none
    ∧ ((RateLimiter.check_limit ⟨2, 60, []⟩ 0).1.check_limit (1 / 2)).2 = none
    ∧ (((RateLimiter.check_limit ⟨2, 60, []⟩ 0).1.check_limit (1 / 2)).1.check_limit
        (9 / 10)).2 = some (PyErr.rateLimitErr "Rate limit exceeded") := by
  refine ⟨?_, ?_, ?_, ?_, ?_⟩
  · intro α rl now f h
    rw [List.countP_eq_length_filter] at h
    rw [rate_limit_call, RateLimiter.check_limit]
    simp only [if_pos h]
  · intro α rl now f h
    rw [List.countP_eq_length_filter] at h
    rw [rate_limit_call, RateLimiter.check_limit]
    simp only [if_neg (Nat.not_le.mpr h)]
  · norm_num [RateLimiter.check_limit]
  · norm_num [RateLimiter.check_limit]
  · norm_num [RateLimiter.check_limit]

/-- Witness for rate_limiter_sliding_window: a limiter of one call per
10 seconds that already saw a call at time 5 rejects a call at time 6
without invoking the operation. -/
theorem rate_limiter_sliding_window_witness :
    ((1 : Nat) ≤ List.countP
        (fun t => decide ((6 : ℚ) - 10 < t)) [(5 : ℚ)])
    ∧ rate_limit_call ⟨1, 10, [5]⟩ 6 (fun _ => (0 : Nat)) =
        (⟨1, 10, [5]⟩, Except.error (PyErr.rateLimitErr "Rate limit exceeded"),
         false) := by
  have h1 : (1 : Nat) ≤ List.countP
      (fun t => decide ((6 : ℚ) - 10 < t)) [(5 : ℚ)] := by
    norm_num [List.countP_cons]
  refine ⟨h1, ?_⟩
  have h := rate_limiter_sliding_window.1 Nat ⟨1, 10, [5]⟩ 6
    (fun _ => (0 : Nat)) h1
  rw [h]
  norm_num [List.filter]

/-- C6: require_safety_check around a destructively-named function
rejects with SafetyCheckFailed when the custom check returns false, or —
absent a custom check — when confirm is not passed truthy, in both cases
without invoking the wrapped operation; it invokes the operation when the
custom check passes or confirm=True is given; functions with no
destructive keyword in their name pass through unchecked; and the
keyword matching classifies delete_workspace and remove_rule as
destructive and get_workspace as not. -/
theorem require_safety_check_gating :
    (∀ (κ α : Type) (ch : κ → Bool) (name : String) (confirm : Bool)
       (args : κ) (f : κ → α),
       is_destructive name = true → ch args = false →
       require_safety_check (some ch) name confirm args f =
         (Except.error (PyErr.safetyFailed
            "Safety check failed. Operation blocked."), false))
    ∧ (∀ (κ α : Type) (ch : κ → Bool) (name : String) (confirm : Bool)
       (args : κ) (f : κ → α),
       is_destructive name = true → ch args = true →
       require_safety_check (some ch) name confirm args f =
         (Except.ok (f args), true))
    ∧ (∀ (κ α : Type) (name : String) (args : κ) (f : κ → α),
       is_destructive name = true →
       require_safety_check (none : Option (κ → Bool)) name true args f =
         (Except.ok (f args), true))
    ∧ (∀ (κ α : Type) (name : String) (args : κ) (f : κ → α),
       is_destructive name = true →
       require_safety_check (none : Option (κ → Bool)) name false args f =
         (Except.error (PyErr.safetyFailed
            "Destructive operation requires confirm=True parameter"), false))
    ∧ (∀ (κ α : Type) (chOpt : Option (κ → Bool)) (name : String)
       (confirm : Bool) (args : κ) (f : κ → α),
       is_destructive name = false →
       require_safety_check chOpt name confirm args f =
         (Except.ok (f args), true))
    ∧ is_destructive "delete_workspace" = true
    ∧ is_destructive "remove_rule" = true
    ∧ is_destructive "get_workspace" = false := by
  refine ⟨?_, ?_, ?_, ?_, ?_, by decide, by decide, by decide⟩
  · intro κ α ch name confirm args f hdest hch
    rw [require_safety_check, if_pos hdest]
    simp [hch]
  · intro κ α ch name confirm args f hdest hch
    rw [require_safety_check, if_pos hdest]
    simp [hch]
  · intro κ α name args f hdest
    rw [require_safety_check, if_pos hdest]
    simp
  · intro κ α name args f hdest
    rw [require_safety_check, if_pos hdest]
    simp
  · intro κ α chOpt name confirm args f hdest
    rw [require_safety_check.eq_def, hdest]
    simp

/-- Witness for require_safety_check_gating: a falsy custom check blocks
delete_workspace without invoking it. -/
theorem require_safety_check_gating_witness :
    (is_destructive "delete_workspace" = true)
    ∧ ((fun _ : Nat => false) 3 = false)
    ∧ require_safety_check (some (fun _ : Nat => false)) "delete_workspace"
        false 3 (fun n => n + 1) =
      (Except.error (PyErr.safetyFailed
        "Safety check failed. Operation blocked."), false) :=
  ⟨by decide, rfl,
   require_safety_check_gating.1 Nat Nat (fun _ => false) "delete_workspace"
     false 3 (fun n => n + 1) (by decide) rfl⟩

/-- A block of statements that all succeed leaves the pending state at
the fold of their effects and raises nothing. -/
theorem run_block_all_ok {σ : Type} (good : List (σ → σ)) (c : σ) :
    run_block c (good.map (fun g s => Except.ok (g s)))
      = (good.foldl (fun s g => g s) c, none) := by
  induction good generalizing c with
  | nil => rfl
  | cons g t ih => simp only [List.map_cons, run_block, List.foldl_cons, ih]

/-- A block whose first failing step raises e stops there and reports e;
the pending state holds the effects of the preceding statements. -/
theorem run_block_first_error {σ : Type} (good : List (σ → σ)) (e : PyErr)
    (rest : List (σ → Except PyErr σ)) (c : σ) :
    run_block c (good.map (fun g s => Except.ok (g s))
        ++ (fun _ => Except.error e) :: rest)
      = (good.foldl (fun s g => g s) c, some e) := by
  induction good generalizing c with
  | nil => rfl
  | cons g t ih =>
    simp only [List.map_cons, List.cons_append, run_block, List.foldl_cons,
      List.append_eq, ih]

/-- C1: the get_connection scope discipline.  A block whose statements
all succeed exits normally with every statement's effect committed; a
block in which any step raises — whether a sqlite3.Error or any other
exception — exits with the database exactly as it was before the scope
(the already-executed statements are all rolled back, explicitly for
sqlite errors and by close-without-commit for the rest) and the error
re-raised; and in every case the connection is closed on scope exit. -/
theorem get_connection_scope_atomic :
    (∀ (σ : Type) (db : σ) (good : List (σ → σ)),
       get_connection_scope db (good.map (fun g s => Except.ok (g s))) =
         { db := good.foldl (fun s g => g s) db, raised := none,
           closed := true })
    ∧ (∀ (σ : Type) (db : σ) (good : List (σ → σ)) (e : PyErr)
       (rest : List (σ → Except PyErr σ)),
       get_connection_scope db (good.map (fun g s => Except.ok (g s))
           ++ (fun _ => Except.error e) :: rest) =
         { db := db, raised := some e, closed := true })
    ∧ (∀ (σ : Type) (db : σ) (stmts : List (σ → Except PyErr σ)),
       (get_connection_scope db stmts).closed = true) := by
  refine ⟨?_, ?_, ?_⟩
  · intro σ db good
    rw [get_connection_scope, run_block_all_ok]
    rfl
  · intro σ db good e rest
    rw [get_connection_scope, run_block_first_error]
    cases e <;> rfl
  · intro σ db stmts
    rw [get_connection_scope]
    rcases hrb : run_block db stmts with ⟨p, out⟩
    rcases out with _ | e
    · rfl
    · cases e <;> rfl

/-- C7 counterexample: a two-statement schema whose second statement
fails.  init_database raises the error, yet the first statement's effect
is already durable: the schema landed partially, refuting the claim that
either the whole schema lands or none of it does (on failure, nothing
should have landed). -/
theorem init_database_partial_application :
    init_database true
        [fun (l : List Nat) => Except.ok (l ++ [1]),
         fun _ => Except.error (PyErr.sqlite "syntax error")] []
      = ([1], some (PyErr.sqlite "syntax error"))
    ∧ ([1] : List Nat) ≠ [] := by
  constructor
  · rfl
  · decide

/-- C7 (amended): init_database raises FileNotFoundError — the spec's
SchemaNotFoundError — when the schema file is absent, touching nothing;
when the schema file exists its statements run in order as a single
script, but sqlite3's executescript performs no implicit transaction
control, so each completed statement is durable at once: if every
statement succeeds the whole schema lands, and if a statement fails the
statements before it remain applied — partial application is possible,
not impossible. -/
theorem init_database_script_semantics :
    (∀ (σ : Type) (stmts : List (σ → Except PyErr σ)) (empty : σ),
       init_database false stmts empty =
         (empty, some (PyErr.fileNotFound "Schema file not found")))
    ∧ (∀ (σ : Type) (good : List (σ → σ)) (empty : σ),
       init_database true (good.map (fun g s => Except.ok (g s))) empty =
         (good.foldl (fun s g => g s) empty, none))
    ∧ (∀ (σ : Type) (good : List (σ → σ)) (e : PyErr)
       (rest : List (σ → Except PyErr σ)) (empty : σ),
       init_database true (good.map (fun g s => Except.ok (g s))
           ++ (fun _ => Except.error e) :: rest) empty =
         (good.foldl (fun s g => g s) empty, some e)) := by
  refine ⟨fun σ stmts empty => rfl, ?_, ?_⟩
  · intro σ good empty
    rw [init_database]
    simp only [Bool.true_eq_false, if_false]
    induction good generalizing empty with
    | nil => rfl
    | cons g t ih =>
      simp only [List.map_cons, executescript, List.foldl_cons, ih]
  · intro σ good e rest empty
    rw [init_database]
    simp only [Bool.true_eq_false, if_false]
    induction good generalizing empty with
    | nil => rfl
    | cons g t ih =>
      simp only [List.map_cons, List.cons_append, executescript,
        List.foldl_cons, List.append_eq, ih]

/-- When every open attempt from index a with rem iterations left raises
a sqlite3.Error, the acquisition loop sleeps 0.1·(attempt+1) seconds
between consecutive attempts and finally re-raises the error of the last
attempt. -/
theorem connect_loop_all_fail (opens : Nat → Option PyErr) (es : Nat → PyErr) :
    ∀ (rem a : Nat), 1 ≤ rem →
    (∀ j < rem, opens (a + j) = some (es (a + j))
        ∧ isSqliteError (es (a + j)) = true) →
    connect_loop opens rem a =
      (Except.error (es (a + rem - 1)),
       (List.range (rem - 1)).map
         (fun (k : Nat) => (1 / 10 : ℚ) * ((a : ℚ) + (k : ℚ) + 1))) := by
  intro rem
  induction rem with
  | zero => intro a h1; omega
  | succ rem ih =>
    intro a _ hfail
    have h0 := hfail 0 (by omega)
    rw [Nat.add_zero] at h0
    simp only [connect_loop, h0.1, h0.2, if_true]
    by_cases hrem : 0 < rem
    · obtain ⟨rem2, rfl⟩ : ∃ m, rem = m + 1 := ⟨rem - 1, by omega⟩
      have hshift : ∀ j < rem2 + 1, opens (a + 1 + j) = some (es (a + 1 + j))
          ∧ isSqliteError (es (a + 1 + j)) = true := by
        intro j hj
        have := hfail (j + 1) (by omega)
        rwa [show a + (j + 1) = a + 1 + j by omega] at this
      have hrest := ih (a + 1) (by omega) hshift
      rw [if_pos hrem, hrest]
      simp only [Prod.mk.injEq]
      constructor
      · rw [show a + 1 + (rem2 + 1) - 1 = a + (rem2 + 1 + 1) - 1 by omega]
      · rw [show rem2 + 1 + 1 - 1 = rem2 + 1 by omega,
            show rem2 + 1 - 1 = rem2 by omega,
            List.range_succ_eq_map, List.map_cons, List.map_map]
        congr 1
        · push_cast
          ring
        · apply List.map_congr_left
          intro k hk
          simp only [Function.comp]
          push_cast
          ring
    · have hrem0 : rem = 0 := by omega
      subst hrem0
      rw [if_neg (by omega)]
      simp

/-- C3: when every open attempt fails with a sqlite3.Error,
get_connection makes retry_count attempts in total (retry_count - 1
re-tries, at most retryCount), sleeping 0.1·attempt seconds before the
attempt numbered attempt (1-based) for linearly increasing backoff, and
finally fails by re-raising the error of the last attempt — the
ConnectionError of the spec is this sqlite3.Error, which is itself the
last underlying cause. -/
theorem get_connection_retry_exhaustion (opens : Nat → Option PyErr)
    (es : Nat → PyErr) (retry_count : Nat) (h1 : 1 ≤ retry_count)
    (hfail : ∀ j < retry_count,
      opens j = some (es j) ∧ isSqliteError (es j) = true) :
    get_connection_open opens retry_count =
      (Except.error (es (retry_count - 1)),
       (List.range (retry_count - 1)).map
         (fun (k : Nat) => (1 / 10 : ℚ) * ((k : ℚ) + 1)))
    ∧ (get_connection_open opens retry_count).2.length = retry_count - 1 := by
  have h := connect_loop_all_fail opens es retry_count 0 h1
    (by intro j hj; simpa using hfail j hj)
  constructor
  · rw [get_connection_open, h]
    simp only [Nat.zero_add, Prod.mk.injEq]
    refine ⟨trivial, ?_⟩
    apply List.map_congr_left
    intro k hk
    push_cast
    ring
  · rw [get_connection_open, h]
    simp

/-- Witness for get_connection_retry_exhaustion: three attempts all
raising the same sqlite error yield that error after sleeps of 0.1 and
0.2 seconds. -/
theorem get_connection_retry_exhaustion_witness :
    ((1 : Nat) ≤ 3)
    ∧ get_connection_open (fun _ => some (PyErr.sqlite "unable to open")) 3 =
        (Except.error (PyErr.sqlite "unable to open"),
         [(1 / 10 : ℚ), (1 / 5 : ℚ)]) := by
  refine ⟨by norm_num, ?_⟩
  have h := (get_connection_retry_exhaustion
    (fun _ => some (PyErr.sqlite "unable to open"))
    (fun _ => PyErr.sqlite "unable to open") 3 (by norm_num)
    (fun j hj => ⟨rfl, rfl⟩)).1
  rw [h]
  norm_num [List.range_succ]

/-- The retry loop makes at most remaining invocations. -/
theorem retry_loop_count_le {α : Type} (outcomes : Nat → Except PyErr α)
    (retryable : PyErr → Bool) (f : ℚ) :
    ∀ (rem a : Nat) (d : ℚ),
      (retry_loop outcomes retryable f rem a d).2.1 ≤ rem := by
  intro rem
  induction rem with
  | zero => intro a d; simp [retry_loop]
  | succ rem ih =>
    intro a d
    rcases houtcome : outcomes a with e | v
    · simp only [retry_loop, houtcome]
      by_cases hr : retryable e = true
      · by_cases hrem : 0 < rem
        · simp only [hr, if_true, if_pos hrem]
          have := ih (a + 1) (d * f)
          omega
        · simp only [hr, if_true, if_neg hrem]
          omega
      · have hr' : retryable e = false := by simpa using hr
        simp only [hr', Bool.false_eq_true, if_false]
        omega
    · simp [retry_loop, houtcome]

/-- The i-th sleep of the retry loop (0-based) is d · f^i. -/
theorem retry_loop_delays_geometric {α : Type} (outcomes : Nat → Except PyErr α)
    (retryable : PyErr → Bool) (f : ℚ) :
    ∀ (rem a : Nat) (d : ℚ),
      (retry_loop outcomes retryable f rem a d).2.2 =
        (List.range (retry_loop outcomes retryable f rem a d).2.2.length).map
          (fun (k : Nat) => d * f ^ k) := by
  intro rem
  induction rem with
  | zero => intro a d; rfl
  | succ rem ih =>
    intro a d
    rcases houtcome : outcomes a with e | v
    · simp only [retry_loop, houtcome]
      by_cases hr : retryable e = true
      · by_cases hrem : 0 < rem
        · simp only [hr, if_true, if_pos hrem, List.length_cons,
            List.range_succ_eq_map, List.map_cons, List.map_map]
          congr 1
          · rw [pow_zero, mul_one]
          · conv_lhs => rw [ih (a + 1) (d * f)]
            apply List.map_congr_left
            intro k hk
            simp only [Function.comp]
            rw [pow_succ]
            ring
        · simp [hr, if_neg hrem]
      · have hr' : retryable e = false := by simpa using hr
        simp [hr']
    · simp [retry_loop, houtcome]

/-- An invocation raising a non-retryable error, after k invocations that
raised retryable ones, ends the loop at once: the error propagates
unchanged and exactly k + 1 invocations were made. -/
theorem retry_loop_nonretryable_immediate {α : Type}
    (outcomes : Nat → Except PyErr α) (retryable : PyErr → Bool) (f : ℚ) :
    ∀ (k rem a : Nat) (d : ℚ) (e : PyErr), k < rem →
      (∀ j < k, ∃ ej, outcomes (a + j) = Except.error ej
          ∧ retryable ej = true) →
      outcomes (a + k) = Except.error e → retryable e = false →
      (retry_loop outcomes retryable f rem a d).1 = Except.error e
        ∧ (retry_loop outcomes retryable f rem a d).2.1 = k + 1 := by
  intro k
  induction k with
  | zero =>
    intro rem a d e hlt _ houtcome hr
    rw [Nat.add_zero] at houtcome
    obtain ⟨rem2, rfl⟩ : ∃ m, rem = m + 1 := ⟨rem - 1, by omega⟩
    simp [retry_loop, houtcome, hr]
  | succ k ih =>
    intro rem a d e hlt hprev houtcome hr
    obtain ⟨e0, he0, hr0⟩ := hprev 0 (by omega)
    rw [Nat.add_zero] at he0
    obtain ⟨rem2, rfl⟩ : ∃ m, rem = m + 1 := ⟨rem - 1, by omega⟩
    have hrem2 : 0 < rem2 := by omega
    simp only [retry_loop, he0, hr0, if_true, if_pos hrem2]
    have hshift : ∀ j < k, ∃ ej, outcomes (a + 1 + j) = Except.error ej
        ∧ retryable ej = true := by
      intro j hj
      obtain ⟨ej, hej, hrj⟩ := hprev (j + 1) (by omega)
      exact ⟨ej, by rwa [show a + (j + 1) = a + 1 + j by omega] at hej, hrj⟩
    have hout : outcomes (a + 1 + k) = Except.error e := by
      rwa [show a + (k + 1) = a + 1 + k by omega] at houtcome
    have := ih rem2 (a + 1) (d * f) e (by omega) hshift hout hr
    exact ⟨this.1, by omega⟩

/-- When every invocation raises a retryable error, the loop makes all
rem invocations, sleeps geometrically, and re-raises the error of the
last invocation unchanged. -/
theorem retry_loop_all_fail {α : Type} (outcomes : Nat → Except PyErr α)
    (retryable : PyErr → Bool) (f : ℚ) (es : Nat → PyErr) :
    ∀ (rem a : Nat) (d : ℚ), 1 ≤ rem →
      (∀ j < rem, outcomes (a + j) = Except.error (es (a + j))
          ∧ retryable (es (a + j)) = true) →
      retry_loop outcomes retryable f rem a d =
        (Except.error (es (a + rem - 1)), rem,
         (List.range (rem - 1)).map (fun (k : Nat) => d * f ^ k)) := by
  intro rem
  induction rem with
  | zero => intro a d h1; omega
  | succ rem ih =>
    intro a d _ hfail
    have h0 := hfail 0 (by omega)
    rw [Nat.add_zero] at h0
    simp only [retry_loop, h0.1, h0.2, if_true]
    by_cases hrem : 0 < rem
    · obtain ⟨rem2, rfl⟩ : ∃ m, rem = m + 1 := ⟨rem - 1, by omega⟩
      have hshift : ∀ j < rem2 + 1,
          outcomes (a + 1 + j) = Except.error (es (a + 1 + j))
            ∧ retryable (es (a + 1 + j)) = true := by
        intro j hj
        have := hfail (j + 1) (by omega)
        rwa [show a + (j + 1) = a + 1 + j by omega] at this
      have hrest := ih (a + 1) (d * f) (by omega) hshift
      rw [if_pos hrem, hrest]
      simp only [Prod.mk.injEq]
      refine ⟨?_, trivial, ?_⟩
      · rw [show a + 1 + (rem2 + 1) - 1 = a + (rem2 + 1 + 1) - 1 by omega]
      · rw [show rem2 + 1 + 1 - 1 = rem2 + 1 by omega,
            show rem2 + 1 - 1 = rem2 by omega,
            List.range_succ_eq_map, List.map_cons, List.map_map]
        congr 1
        · rw [pow_zero, mul_one]
        · apply List.map_congr_left
          intro k hk
          simp only [Function.comp]
          rw [pow_succ]
          ring
    · have hrem0 : rem = 0 := by omega
      subst hrem0
      rw [if_neg (by omega)]
      simp

/-- C4: retry_with_backoff invokes the wrapped operation at most
max_retries + 1 times; the sequence of sleeps starts at initial_delay
and is multiplied by backoff_factor after each failed attempt; an
exception not matching retryableErrors propagates immediately, unchanged,
with no further attempt; and when every attempt fails with a retryable
error, all max_retries + 1 attempts are made and the last error is
re-raised unchanged. -/
theorem retry_with_backoff_contract {α : Type} (max_retries : Nat)
    (initial_delay backoff_factor : ℚ) (retryable : PyErr → Bool)
    (outcomes : Nat → Except PyErr α) :
    (retry_with_backoff max_retries initial_delay backoff_factor retryable
        outcomes).2.1 ≤ max_retries + 1
    ∧ (retry_with_backoff max_retries initial_delay backoff_factor retryable
        outcomes).2.2 =
      (List.range (retry_with_backoff max_retries initial_delay
          backoff_factor retryable outcomes).2.2.length).map
        (fun (k : Nat) => initial_delay * backoff_factor ^ k)
    ∧ (∀ (k : Nat) (e : PyErr), k ≤ max_retries →
        (∀ j < k, ∃ ej, outcomes j = Except.error ej ∧ retryable ej = true) →
        outcomes k = Except.error e → retryable e = false →
        (retry_with_backoff max_retries initial_delay backoff_factor
            retryable outcomes).1 = Except.error e
        ∧ (retry_with_backoff max_retries initial_delay backoff_factor
            retryable outcomes).2.1 = k + 1)
    ∧ (∀ es : Nat → PyErr,
        (∀ j < max_retries + 1,
          outcomes j = Except.error (es j) ∧ retryable (es j) = true) →
        retry_with_backoff max_retries initial_delay backoff_factor
            retryable outcomes =
          (Except.error (es max_retries), max_retries + 1,
           (List.range max_retries).map
             (fun (k : Nat) => initial_delay * backoff_factor ^ k))) := by
  refine ⟨?_, ?_, ?_, ?_⟩
  · exact retry_loop_count_le outcomes retryable backoff_factor
      (max_retries + 1) 0 initial_delay
  · exact retry_loop_delays_geometric outcomes retryable backoff_factor
      (max_retries + 1) 0 initial_delay
  · intro k e hk hprev houtcome hr
    exact retry_loop_nonretryable_immediate outcomes retryable backoff_factor
      k (max_retries + 1) 0 initial_delay e (by omega)
      (by intro j hj; simpa using hprev j hj) (by simpa using houtcome) hr
  · intro es hfail
    have h := retry_loop_all_fail outcomes retryable backoff_factor es
      (max_retries + 1) 0 initial_delay (by omega)
      (by intro j hj; simpa using hfail j hj)
    rw [retry_with_backoff, h]
    simp

/-- Witness for retry_with_backoff_contract: three attempts all raising
the same retryable sqlite error make three invocations with sleeps 1 and
2 seconds and re-raise the error. -/
theorem retry_with_backoff_contract_witness :
    (∀ j < 2 + 1,
      (fun _ => (Except.error (PyErr.sqlite "locked") : Except PyErr Nat)) j
          = Except.error (PyErr.sqlite "locked")
        ∧ isSqliteError (PyErr.sqlite "locked") = true)
    ∧ retry_with_backoff 2 1 2 isSqliteError
        (fun _ => (Except.error (PyErr.sqlite "locked") : Except PyErr Nat)) =
      (Except.error (PyErr.sqlite "locked"), 3, [(1 : ℚ), (2 : ℚ)]) := by
  refine ⟨fun j hj => ⟨rfl, rfl⟩, ?_⟩
  have h := (retry_with_backoff_contract 2 1 2 isSqliteError
    (fun _ => (Except.error (PyErr.sqlite "locked") : Except PyErr Nat))).2.2.2
    (fun _ => PyErr.sqlite "locked") (fun j hj => ⟨rfl, rfl⟩)
  rw [h]
  norm_num [List.range_succ]

/-- Appending a fresh row and then updating by its id touches only the
appended row. -/
theorem audit_map_fresh_append (db : AuditDb)
    (hfresh : ∀ r ∈ db.rows, r.id < db.next_id) (x : ActionRow)
    (g : ActionRow → ActionRow) (hx : x.id = db.next_id) :
    (db.rows ++ [x]).map
        (fun r => if r.id == db.next_id then g r else r)
      = db.rows ++ [g x] := by
  have hne : ∀ r ∈ db.rows, ((fun s : ActionRow => s.id == db.next_id) r) = false := by
    intro r hr
    have := hfresh r hr
    simp [Nat.ne_of_lt this]
  rw [List.map_append, map_update_eq_self _ _ db.rows hne,
      List.map_cons, List.map_nil]
  simp [hx]

/-- Looking a fresh appended row up by its id finds exactly it. -/
theorem audit_find_fresh_append (db : AuditDb)
    (hfresh : ∀ r ∈ db.rows, r.id < db.next_id) (x : ActionRow)
    (hx : x.id = db.next_id) :
    (db.rows ++ [x]).find? (fun r => r.id == db.next_id) = some x := by
  rw [List.find?_append,
      List.find?_eq_none.mpr (fun r hr => by
        have := hfresh r hr
        simp [Nat.ne_of_lt this])]
  simp [List.find?, hx]

/-- C2 (amended): require_verification creates exactly one Action Log
row per call, appended with the fresh id and observed as pending, then
in_progress, before the wrapped function runs; if the function succeeds
the row ends completed and the result is returned; if it raises, the row
ends failed with description str(e) — non-empty exactly when the
exception's message is — and the original exception is re-raised;
in_progress is always observed before either terminal state, and no
other row is touched. -/
theorem require_verification_audit_trail {α : Type} (db : AuditDb)
    (ty : String) (fres : Except PyErr α)
    (hfresh : ∀ r ∈ db.rows, r.id < db.next_id) :
    (require_verification db ty fres).2.1 = db.next_id
    ∧ (require_verification db ty fres).1.rows.length = db.rows.length + 1
    ∧ (∀ a, fres = Except.ok a →
        (require_verification db ty fres).1.rows
            = db.rows ++ [⟨db.next_id, ty, "completed", none⟩]
        ∧ (require_verification db ty fres).2.2.2 = Except.ok a
        ∧ (require_verification db ty fres).2.2.1
            = [some "pending", some "in_progress", some "completed"])
    ∧ (∀ e, fres = Except.error e →
        (require_verification db ty fres).1.rows
            = db.rows ++ [⟨db.next_id, ty, "failed", some (pyStr e)⟩]
        ∧ (require_verification db ty fres).2.2.2 = Except.error e
        ∧ (require_verification db ty fres).2.2.1
            = [some "pending", some "in_progress", some "failed"]) := by
  have hmap1 := audit_map_fresh_append db hfresh
    ⟨db.next_id, ty, "pending", none⟩
    (fun r => { r with status := "in_progress" }) rfl
  have hmap2c := audit_map_fresh_append db hfresh
    ⟨db.next_id, ty, "in_progress", none⟩
    (fun r => { r with status := "completed" }) rfl
  have hfind1 := audit_find_fresh_append db hfresh
    ⟨db.next_id, ty, "pending", none⟩ rfl
  have hfind2 := audit_find_fresh_append db hfresh
    ⟨db.next_id, ty, "in_progress", none⟩ rfl
  have hfind3c := audit_find_fresh_append db hfresh
    ⟨db.next_id, ty, "completed", none⟩ rfl
  rcases fres with e | a
  · have hmap2f := audit_map_fresh_append db hfresh
      ⟨db.next_id, ty, "in_progress", none⟩
      (fun r => { r with status := "failed", description := some (pyStr e) })
      rfl
    have hfind3f := audit_find_fresh_append db hfresh
      ⟨db.next_id, ty, "failed", some (pyStr e)⟩ rfl
    refine ⟨rfl, ?_, ?_, ?_⟩
    · simp only [require_verification, log_action, update_action_status,
        update_action_failed, hmap1, hmap2f]
      simp
    · intro a ha
      cases ha
    · intro e2 he
      injection he with he2
      subst he2
      refine ⟨?_, rfl, ?_⟩
      · simp only [require_verification, log_action, update_action_status,
          update_action_failed, hmap1, hmap2f]
      · simp only [require_verification, log_action, update_action_status,
          update_action_failed, get_action_status, hmap1, hmap2f,
          hfind1, hfind2, hfind3f]
        rfl
  · refine ⟨rfl, ?_, ?_, ?_⟩
    · simp only [require_verification, log_action, update_action_status,
        hmap1, hmap2c]
      simp
    · intro a2 ha
      injection ha with ha2
      subst ha2
      refine ⟨?_, rfl, ?_⟩
      · simp only [require_verification, log_action, update_action_status,
          hmap1, hmap2c]
      · simp only [require_verification, log_action, update_action_status,
          get_action_status, hmap1, hmap2c, hfind1, hfind2, hfind3c]
        rfl
    · intro e he
      cases he

/-- C2 counterexample: a wrapped function that raises an exception whose
str() is empty (raise Exception() in Python).  The decorator stores
description = str(e) = "", so the Action Log row ends with status failed
but an EMPTY description, refuting the claim that a failing wrapped call
always leaves a non-empty description. -/
theorem require_verification_empty_description :
    (require_verification (α := Unit) ⟨[], 0⟩ "delete_rule"
        (Except.error (PyErr.other ""))).1.rows
      = [⟨0, "delete_rule", "failed", some ""⟩]
    ∧ ∃ r ∈ (require_verification (α := Unit) ⟨[], 0⟩ "delete_rule"
        (Except.error (PyErr.other ""))).1.rows,
        r.status = "failed" ∧ r.description = some "" := by
  decide

/-- Witness for require_verification_audit_trail: an empty action_log
table is fresh, and a call raising an exception with message boom leaves
the single failed row with that description. -/
theorem require_verification_audit_trail_witness :
    (∀ r ∈ (⟨[], 0⟩ : AuditDb).rows, r.id < (⟨[], 0⟩ : AuditDb).next_id)
    ∧ (require_verification (α := Unit) ⟨[], 0⟩ "sync_rules"
          (Except.error (PyErr.other "boom"))).1.rows
        = [⟨0, "sync_rules", "failed", some "boom"⟩]
    ∧ (require_verification (α := Unit) ⟨[], 0⟩ "sync_rules"
          (Except.error (PyErr.other "boom"))).2.2.1
        = [some "pending", some "in_progress", some "failed"] := by
  have h := (require_verification_audit_trail (⟨[], 0⟩ : AuditDb) "sync_rules"
    (Except.error (PyErr.other "boom") : Except PyErr Unit)
    (by decide)).2.2.2 (PyErr.other "boom") rfl
  exact ⟨by decide, h.1, h.2.2⟩
